import Mathlib

/-!
Shallow embedding of the DeZog cycle-driven hardware-simulation core:

* `src/src/remotes/zsimulator/zxndma.ts` — the zxnDMA controller
  (write-register decode protocol, block transfer engine, state query,
  serialization stubs).
* `src/src/remotes/zsimulator/zx81ulascreen.ts` — the ZX81 ULA screen
  (both the simple dfile variant and the bus-accurate variant with
  HSYNC/VSYNC state machine, refresh-register interrupt edge detection,
  opcode-fetch interception and serialization).

JavaScript numbers that only ever hold non-negative integers are modelled
as `Nat`; the per-loop address increments (−1/0/+1) are `Int` and the
16-bit wrap `(x + add) & 0xFFFF` is modelled as `((x + add) % 65536).toNat`
over `Int`, which agrees with JavaScript's int32 masking on the reachable
values.  The string-valued, purely cosmetic log field `lastOperation` and
the `emit("log", ...)` calls are not modelled; all other fields are.
-/

/-! ### The zxnDMA controller (`zxndma.ts`)

The decode state "which WRx function handles the next byte" is a swappable
function pointer `writePortFunc` in the source; it is modelled as the
enumeration `WrFunc` plus a dispatch in `writePortPure`. -/

/-- The possible values of the `writePortFunc` function pointer. -/
inductive WrFunc where
  | decodeWRGroup
  | wr0 | wr1 | wr2 | wr3 | wr4 | wr5 | wr6
deriving DecidableEq

/-- The register file and decode state of class `ZxnDma`.
Field names follow the source.  `bl` is the counter behind `getState()`
(source line `protected bl: number = 0;`). -/
structure DmaState where
  writePortFunc : WrFunc
  nextDecodeBitMask : Nat
  transferDirectionPortAtoB : Bool
  portAstartAddress : Nat
  portBstartAddress : Nat
  blockLength : Nat
  portAisIo : Bool
  portBisIo : Bool
  portAadd : Int
  portBadd : Int
  portAcycleLength : Nat
  portBcycleLength : Nat
  zxnPrescalar : Nat
  burstMode : Bool
  autoRestart : Bool
  readMask : Nat
  lastReadSequenceBit : Nat
  enabled : Bool
  statusByteRR0 : Nat
  blockCounterRR12 : Nat
  portAaddressCounterRR34 : Nat
  portBaddressCounterRR56 : Nat
  bl : Nat
deriving DecidableEq

/-- `checkLastByte()`: when the pending-bits mask is drained, the decode
state returns to "select register". -/
def checkLastByte (s : DmaState) : DmaState :=
  if s.nextDecodeBitMask = 0 then { s with writePortFunc := .decodeWRGroup } else s

/-- `load()` command: copy the start addresses into the address counters
and clear the block counter. -/
def dmaLoad (s : DmaState) : DmaState :=
  { s with portAaddressCounterRR34 := s.portAstartAddress,
           portBaddressCounterRR56 := s.portBstartAddress,
           blockCounterRR12 := 0 }

/-- `reset()` command (0xC3): clears auto-restart and both cycle-length
overrides, nothing else. -/
def dmaReset (s : DmaState) : DmaState :=
  { s with autoRestart := false, portAcycleLength := 0, portBcycleLength := 0 }

/-- `writeWR0`: transfer direction, port A start address, block length. -/
def writeWR0 (s : DmaState) (value : Nat) : DmaState :=
  checkLastByte <|
  if s.nextDecodeBitMask = 0 then
    { s with transferDirectionPortAtoB := decide ((value &&& 0b100) = 0b100),
             nextDecodeBitMask := value &&& 0b01111000 }
  else if s.nextDecodeBitMask &&& 0b01000 ≠ 0 then
    { s with portAstartAddress := (s.portAstartAddress &&& 0xFF00) ||| value,
             nextDecodeBitMask := s.nextDecodeBitMask &&& 0xFFFFFFF7 }
  else if s.nextDecodeBitMask &&& 0b10000 ≠ 0 then
    { s with portAstartAddress := (s.portAstartAddress &&& 0x00FF) ||| (value <<< 8),
             nextDecodeBitMask := s.nextDecodeBitMask &&& 0xFFFFFFEF }
  else if s.nextDecodeBitMask &&& 0b100000 ≠ 0 then
    { s with blockLength := (s.blockLength &&& 0xFF00) ||| value,
             nextDecodeBitMask := s.nextDecodeBitMask &&& 0xFFFFFFDF }
  else if s.nextDecodeBitMask &&& 0b1000000 ≠ 0 then
    { s with blockLength := (s.blockLength &&& 0x00FF) ||| (value <<< 8),
             nextDecodeBitMask := s.nextDecodeBitMask &&& 0xFFFFFFBF }
  else s

/-- `writeWR1`: port A memory/IO, address step, optional cycle length. -/
def writeWR1 (s : DmaState) (value : Nat) : DmaState :=
  checkLastByte <|
  if s.nextDecodeBitMask = 0 then
    { s with portAisIo := decide ((value &&& 0b01000) = 0b01000),
             portAadd := if value &&& 0b100000 ≠ 0 then 0
                         else if value &&& 0b010000 ≠ 0 then 1 else -1,
             nextDecodeBitMask := value &&& 0b01000000 }
  else
    let clBits := value &&& 0b011
    let s1 := if clBits ≠ 0b011 then { s with portAcycleLength := 1 + (clBits ^^^ 0b011) } else s
    { s1 with nextDecodeBitMask := 0 }

/-- `writeWR2`: port B memory/IO, address step, optional cycle length and
ZX Next prescalar. -/
def writeWR2 (s : DmaState) (value : Nat) : DmaState :=
  checkLastByte <|
  if s.nextDecodeBitMask = 0 then
    { s with portBisIo := decide ((value &&& 0b01000) = 0b01000),
             portBadd := if value &&& 0b100000 ≠ 0 then 0
                         else if value &&& 0b010000 ≠ 0 then 1 else -1,
             nextDecodeBitMask := value &&& 0b01000000 }
  else if s.nextDecodeBitMask &&& 0b01000000 ≠ 0 then
    let clBits := value &&& 0b011
    let s1 := if clBits ≠ 0b011 then { s with portBcycleLength := 1 + (clBits ^^^ 0b011) } else s
    { s1 with nextDecodeBitMask := value &&& 0b00100000 }
  else if s.nextDecodeBitMask &&& 0b00100000 ≠ 0 then
    { s with zxnPrescalar := value, nextDecodeBitMask := 0 }
  else
    { s with nextDecodeBitMask := 0 }

/-- `writeWR3`: DMA enable (single byte). -/
def writeWR3 (s : DmaState) (value : Nat) : DmaState :=
  { s with enabled := decide ((value &&& 0b01000000) ≠ 0),
           writePortFunc := .decodeWRGroup }

/-- `writeWR4`: burst/continuous mode and port B start address. -/
def writeWR4 (s : DmaState) (value : Nat) : DmaState :=
  checkLastByte <|
  if s.nextDecodeBitMask = 0 then
    let mode := (value &&& 0b01100000) >>> 5
    let s1 := if mode ≠ 0b11 then { s with burstMode := decide (mode = 0b10) } else s
    { s1 with nextDecodeBitMask := value &&& 0b1100 }
  else if s.nextDecodeBitMask &&& 0b0100 ≠ 0 then
    { s with portBstartAddress := (s.portBstartAddress &&& 0xFF00) ||| value,
             nextDecodeBitMask := s.nextDecodeBitMask &&& 0xFFFFFFFB }
  else if s.nextDecodeBitMask &&& 0b1000 ≠ 0 then
    { s with portBstartAddress := (s.portBstartAddress &&& 0x00FF) ||| (value <<< 8),
             nextDecodeBitMask := 0 }
  else s

/-- `writeWR5`: auto-restart/stop behavior (single byte). -/
def writeWR5 (s : DmaState) (value : Nat) : DmaState :=
  { s with autoRestart := decide ((value &&& 0b00100000) ≠ 0),
           writePortFunc := .decodeWRGroup }

/-- `writeWR6`: direct commands, or the read-mask parameter after 0xBB.
Unrecognized command bytes are silently ignored. -/
def writeWR6 (s : DmaState) (value : Nat) : DmaState :=
  checkLastByte <|
  if s.nextDecodeBitMask = 0 then
    if value = 0xC3 then dmaReset s
    else if value = 0xC7 then { s with portAcycleLength := 0 }   -- resetPortAtiming
    else if value = 0xCB then { s with portBcycleLength := 0 }   -- resetPortBtiming
    else if value = 0xBF then s                                   -- readStatusByte: TODO in source
    else if value = 0x8B then { s with statusByteRR0 := s.statusByteRR0 ||| 0b00110000 }
    else if value = 0xA7 then { s with lastReadSequenceBit := 0b10000000 }
    else if value = 0xCF then dmaLoad s
    else if value = 0xD3 then { s with blockCounterRR12 := 0 }    -- continue
    else if value = 0x87 then { s with enabled := true }
    else if value = 0x83 then { s with enabled := false }
    else if value = 0xBB then { s with nextDecodeBitMask := value &&& 0b10000000 }
    else s
  else if s.nextDecodeBitMask &&& 0b10000000 ≠ 0 then
    { s with readMask := value &&& 0b01111111, nextDecodeBitMask := 0 }
  else s

/-- The register-group selection of `decodeWRGroup` (first byte after idle). -/
def selectWr (value : Nat) : WrFunc :=
  if value &&& 0x80 ≠ 0 then
    -- WR3-6 by the low two bits
    if value &&& 0b11 = 0 then .wr3
    else if value &&& 0b11 = 1 then .wr4
    else if value &&& 0b11 = 2 then .wr5
    else .wr6
  else if value &&& 0b11 = 0 then
    -- WR1-2
    if value &&& 0b100 ≠ 0 then .wr1 else .wr2
  else .wr0

/-- Dispatch a byte to the WRx handler `f`. -/
def applyWr (f : WrFunc) (s : DmaState) (value : Nat) : DmaState :=
  match f with
  | .decodeWRGroup => s  -- never stored by selectWr
  | .wr0 => writeWR0 s value
  | .wr1 => writeWR1 s value
  | .wr2 => writeWR2 s value
  | .wr3 => writeWR3 s value
  | .wr4 => writeWR4 s value
  | .wr5 => writeWR5 s value
  | .wr6 => writeWR6 s value

/-- `decodeWRGroup`: select the register group from the first byte and
immediately feed the byte to the selected WRx function. -/
def decodeWRGroup (s : DmaState) (value : Nat) : DmaState :=
  let f := selectWr value
  applyWr f { s with writePortFunc := f } value

/-- `writePort`: feed one byte into the decode state machine (the log
emission is not modelled). -/
def writePortPure (s : DmaState) (value : Nat) : DmaState :=
  match s.writePortFunc with
  | .decodeWRGroup => decodeWRGroup s value
  | f => applyWr f s value

/-- The construction state of `ZxnDma` (constructor runs `reset()` and
`initializeReadSequence()` over the field initializers). -/
def dmaInitial : DmaState where
  writePortFunc := .decodeWRGroup
  nextDecodeBitMask := 0
  transferDirectionPortAtoB := true
  portAstartAddress := 0
  portBstartAddress := 0
  blockLength := 0
  portAisIo := false
  portBisIo := false
  portAadd := 0
  portBadd := 0
  portAcycleLength := 0
  portBcycleLength := 0
  zxnPrescalar := 0
  burstMode := true
  autoRestart := false
  readMask := 0b01111111
  lastReadSequenceBit := 0b10000000
  enabled := false
  statusByteRR0 := 0
  blockCounterRR12 := 0
  portAaddressCounterRR34 := 0
  portBaddressCounterRR56 := 0
  bl := 0

/-- `portAtstates()`: per-byte cost of port A. -/
def portAtstates (s : DmaState) : Nat :=
  if s.portAcycleLength = 0 then (if s.portAisIo then 4 else 3)
  else s.portAcycleLength

/-- `portBtstates()`: per-byte cost of port B. -/
def portBtstates (s : DmaState) : Nat :=
  if s.portBcycleLength = 0 then (if s.portBisIo then 4 else 3)
  else s.portBcycleLength

/-- `(x + add) & 0xFFFF` of the source's address-counter stepping. -/
def addrAdd (a : Nat) (step : Int) : Nat := (((a : Int) + step) % 65536).toNat

/-- `getSrcAtAddress`: the memory and IO accesses are unimplemented stubs
in the source (`TODO: Implement`); every read returns 0. -/
def getSrcAtAddress (_address : Nat) (_isIo : Bool) : Nat := 0

/-- `readSrc()`: read one byte from the source port of the transfer. -/
def readSrc (s : DmaState) : Nat :=
  if s.transferDirectionPortAtoB then
    getSrcAtAddress s.portAaddressCounterRR34 s.portAisIo
  else
    getSrcAtAddress s.portBaddressCounterRR56 s.portBisIo

/-- One transfer event: (source address, destination address, byte value).
`setDstAtAddress` is a stub in the source, so the write has no memory
effect; the trace records the bus activity of the loop. -/
abbrev DmaEvent := Nat × Nat × Nat

/-- The `for` loop of `copyContinuous`: `n` remaining iterations. -/
def copyLoop : Nat → DmaState → List DmaEvent → DmaState × List DmaEvent
  | 0, s, tr => (s, tr)
  | n + 1, s, tr =>
    let v := readSrc s
    let srcAddr := if s.transferDirectionPortAtoB then s.portAaddressCounterRR34
                   else s.portBaddressCounterRR56
    let dstAddr := if s.transferDirectionPortAtoB then s.portBaddressCounterRR56
                   else s.portAaddressCounterRR34
    let s' := { s with portAaddressCounterRR34 := addrAdd s.portAaddressCounterRR34 s.portAadd,
                       portBaddressCounterRR56 := addrAdd s.portBaddressCounterRR56 s.portBadd }
    copyLoop n s' (tr ++ [(srcAddr, dstAddr, v)])

/-- `copyContinuous()`: block transfer; returns the new state, the
consumed t-states and the transfer trace.  The source assigns
`statusByteRR0` twice; only the second assignment (`0b00011010 | T`)
survives.  With a non-zero prescalar the source is a `TODO` returning 0. -/
def copyContinuous (s : DmaState) : DmaState × Nat × List DmaEvent :=
  if s.zxnPrescalar = 0 then
    let r := copyLoop s.blockLength s []
    let s1 := r.1
    let tStates := (portAtstates s1 + portBtstates s1) * s1.blockLength
    let s2 := { s1 with blockCounterRR12 := 0,
                        statusByteRR0 := 0b00011010 ||| (if s1.blockLength = 0 then 0 else 0b01),
                        enabled := false }
    (s2, tStates, r.2)
  else
    (s, 0, [])

/-- `execute()`: 0 t-states when disabled or in (unimplemented) burst
mode; otherwise the continuous block transfer. -/
def dmaExecute (s : DmaState) : DmaState × Nat × List DmaEvent :=
  if ¬ s.enabled then (s, 0, [])
  else if s.burstMode then (s, 0, [])
  else copyContinuous s

/-- The object returned by `getState()` (the string-valued `lastOperation`
entry is not modelled). -/
structure DmaSnap where
  blockLength : Nat
  portAstartAddress : Nat
  portBstartAddress : Nat
  transferDirectionPortAtoB : Bool
  portAmode : String
  portBmode : String
  portAadd : Int
  portBadd : Int
  portAcycleLength : Nat
  portBcycleLength : Nat
  mode : String
  zxnPrescalar : Nat
  eobAction : String
  readMask : Nat
  lastReadSequenceBit : Nat
  statusByteRR0 : Nat
  blockCounterRR12 : Nat
  portAaddressCounterRR34 : Nat
  portBaddressCounterRR56 : Nat
deriving DecidableEq

/-- `getState()`: increments the internal counter `bl` and reports it as
`"blockLength"` (the commented-out line would report the real register). -/
def getState (s : DmaState) : DmaState × DmaSnap :=
  let s' := { s with bl := s.bl + 1 }
  (s', { blockLength := s'.bl,
         portAstartAddress := s.portAstartAddress,
         portBstartAddress := s.portBstartAddress,
         transferDirectionPortAtoB := s.transferDirectionPortAtoB,
         portAmode := if s.portAisIo then "IO" else "Memory",
         portBmode := if s.portBisIo then "IO" else "Memory",
         portAadd := s.portAadd,
         portBadd := s.portBadd,
         portAcycleLength := s.portAcycleLength,
         portBcycleLength := s.portBcycleLength,
         mode := if s.burstMode then "Burst" else "Continuous",
         zxnPrescalar := s.zxnPrescalar,
         eobAction := if s.autoRestart then "Auto-Restart" else "Stop",
         readMask := s.readMask &&& 0x7F,
         lastReadSequenceBit := s.lastReadSequenceBit,
         statusByteRR0 := s.statusByteRR0,
         blockCounterRR12 := s.blockCounterRR12,
         portAaddressCounterRR34 := s.portAaddressCounterRR34,
         portBaddressCounterRR56 := s.portBaddressCounterRR56 })

/-- `ZxnDma.serialize`: an empty `TODO` stub in the source — it writes
nothing to the buffer. -/
def dmaSerialize (_s : DmaState) : List Nat := []

/-- `ZxnDma.deserialize`: an empty stub in the source — it reads nothing
and leaves the target instance unchanged. -/
def dmaDeserialize (_buf : List Nat) (t : DmaState) : DmaState := t

/-! ### The ZX81 ULA screen, bus-accurate variant (`zx81ulascreen.ts`)

Timing constants of the source: `TSTATES_PER_SCANLINE = 207`,
`TSTATES_PER_SCREEN = 65000`, `TSTATES_OF_HSYNC_LOW = 16`,
`VSYNC_MINIMAL_TSTATES = 500`.  `borderColor` lives in the `UlaScreen`
base class (not under `src/`); it is carried here as a plain `Nat` field
because `serialize`/`deserialize` and the Chroma81 port touch it. -/

structure UlaState where
  prevRregister : Nat
  stateNmiGeneratorOn : Bool
  ulaLineCounter : Nat
  lineCounter : Nat
  tstates : Nat
  vsyncStartTstates : Nat
  hsyncTstatesCounter : Nat
  int38InNextCycle : Bool
  hsync : Bool
  vsync : Bool
  noDisplay : Bool
  borderColor : Nat
  chroma81Mode : Nat
  chroma81Enabled : Bool
deriving DecidableEq

/-- `generateVsync(on)` (`turnOn` renames the source's `on` parameter):
the Bool result is true iff the `emit('updateScreen')` frame notification
fired. -/
def generateVsync (s : UlaState) (turnOn : Bool) : UlaState × Bool :=
  if s.vsync = turnOn then (s, false)
  else if turnOn then
    -- VSYNC on (low): only if the NMI generator is off
    if ¬ s.stateNmiGeneratorOn then
      ({ s with vsyncStartTstates := s.tstates, vsync := turnOn }, false)
    else (s, false)
  else
    -- VSYNC off (high)
    let lengthOfVsync : Int := (s.tstates : Int) - (s.vsyncStartTstates : Int)
    let genuine := lengthOfVsync ≥ 500
    let s1 := if genuine then { s with noDisplay := false, lineCounter := 0 } else s
    ({ s1 with vsync := turnOn, ulaLineCounter := 0, hsyncTstatesCounter := 0 }, genuine)

/-- The branching of `checkHsync` after the initial
`this.hsyncTstatesCounter += addTstates` mutation. -/
def checkHsyncAux (s : UlaState) : UlaState × Bool × Bool :=
  if s.hsync then
    if s.hsyncTstatesCounter < 207 then (s, false, false)
    else ({ s with hsyncTstatesCounter := s.hsyncTstatesCounter - 207, hsync := false },
          false, false)
  else if s.hsyncTstatesCounter < 207 - 16 then (s, false, false)
  else
    ({ s with ulaLineCounter := (s.ulaLineCounter + 1) &&& 0x07,
              lineCounter := s.lineCounter + 1,
              hsync := true }, true, s.stateNmiGeneratorOn)

/-- `checkHsync(addTstates)`: returns (state, line counter incremented?,
NMI pulsed?). -/
def checkHsync (s : UlaState) (addTstates : Nat) : UlaState × Bool × Bool :=
  checkHsyncAux { s with hsyncTstatesCounter := s.hsyncTstatesCounter + addTstates }

/-- The externally observable effects of one `execute(currentTstates)`
call: the successor state, whether `z80Cpu.interrupt(false, 0)` (maskable)
was called, whether `z80Cpu.interrupt(true, 0)` (NMI) was called, and
whether the no-display `emit('updateScreen')` fired. -/
structure UlaExecResult where
  state : UlaState
  maskableInt : Bool
  nmi : Bool
  noDisplayUpdate : Bool
deriving DecidableEq

/-- `execute(currentTstates)` of the bus-accurate variant.  `r` is the
value of the CPU's R register read during the call (`this.z80Cpu.r`). -/
def ulaExecute (s : UlaState) (r : Nat) (currentTstates : Nat) : UlaExecResult :=
  let s1 := { s with tstates := s.tstates + currentTstates }
  let raised := s1.int38InNextCycle
  let s2 := if raised then { s1 with int38InNextCycle := false } else s1
  -- Bit 6 of R changed from high to low -> interrupt in next cycle
  let s3 := if (r &&& 0b01000000) = 0 ∧ (s2.prevRregister &&& 0b01000000) ≠ 0 then
              { s2 with int38InNextCycle := true } else s2
  let s4 := { s3 with prevRregister := r }
  let h := checkHsync s4 currentTstates
  let s5 := h.1
  -- No display if for 2*20 ms no VSYNC was found
  let noDisp := s5.tstates > s5.vsyncStartTstates + 2 * 65000 ∧ ¬ s5.noDisplay
  let s6 := if noDisp then { s5 with noDisplay := true } else s5
  ⟨s6, raised, h.2.2, decide noDisp⟩

/-- `ulaM1Read8` (opcode-fetch interception of the bus-accurate variant):
the byte is fetched at `addr64k & 0x7FFF`; when A15 is set and bit 6 of
the fetched byte is low, a NOP (0x00) is returned instead. -/
def ulaM1Read8 (memoryRead8 : Nat → Nat) (addr64k : Nat) : Nat :=
  let data := memoryRead8 (addr64k &&& 0x7FFF)
  if addr64k &&& 0x8000 ≠ 0 ∧ (data &&& 0b01000000) = 0 then 0x00
  else data

/-- The memory object seen by the CPU: a plain read and an opcode-fetch
(M1) read. -/
structure UlaMemory where
  read8 : Nat → Nat
  m1Read8 : Nat → Nat

/-- The constructor of the bus-accurate variant remaps only the
opcode-fetch path: `z80Cpu.memory.m1Read8 = this.ulaM1Read8.bind(this)`,
with `this.memoryRead8` bound to the original `read8`. -/
def installUlaM1 (m : UlaMemory) : UlaMemory :=
  { m with m1Read8 := ulaM1Read8 m.read8 }

/-- `ulaRead8` of the simple dfile variant (first class of the file): the
byte is fetched at the unmasked address. -/
def ulaRead8 (memoryRead8 : Nat → Nat) (addr64k : Nat) : Nat :=
  let data := memoryRead8 addr64k
  if addr64k &&& 0x8000 ≠ 0 ∧ (data &&& 0b01000000) = 0 then 0x00
  else data

/-- The constructor of the simple dfile variant remaps the plain read
path used by every memory read: `memory.read8 = this.ulaRead8.bind(this)`. -/
def installUlaRead (m : UlaMemory) : UlaMemory :=
  { m with read8 := ulaRead8 m.read8 }

/-! ### The snapshot codec

`MemBuffer` itself lives in `src/misc/membuffer.ts`, which is not part of
the given sources. -/

/-- Modelled from the spec: the `MemBuffer` snapshot codec writes "an
ordered sequence of fixed-width fields (booleans as 1 byte, 16-bit values
as little-endian pairs)"; a number is written as 4 little-endian bytes.
`write8` stores one byte. -/
def write8 (buf : List Nat) (v : Nat) : List Nat := buf ++ [v % 256]

/-- Modelled from the spec: boolean as 1 byte. -/
def writeBoolean (buf : List Nat) (b : Bool) : List Nat := buf ++ [cond b 1 0]

/-- Modelled from the spec: fixed-width number, little-endian. -/
def writeNumber (buf : List Nat) (n : Nat) : List Nat :=
  buf ++ [n % 256, n / 256 % 256, n / 65536 % 256, n / 16777216 % 256]

/-- Modelled from the spec: read one byte and advance. -/
def read8 (buf : List Nat) : Nat × List Nat := (buf.headD 0, buf.tail)

/-- Modelled from the spec: read one boolean byte and advance. -/
def readBoolean (buf : List Nat) : Bool × List Nat := (buf.headD 0 ≠ 0, buf.tail)

/-- Modelled from the spec: read a 4-byte little-endian number. -/
def readNumber (buf : List Nat) : Nat × List Nat :=
  (buf.headD 0 + 256 * (buf.tail.headD 0) + 65536 * (buf.tail.tail.headD 0)
     + 16777216 * (buf.tail.tail.tail.headD 0), buf.drop 4)

/-- `Zx81UlaScreen.serialize` (bus-accurate variant): the 13 fields in
source order. -/
def ulaSerialize (s : UlaState) (buf : List Nat) : List Nat :=
  let b1 := write8 buf s.prevRregister
  let b2 := writeBoolean b1 s.stateNmiGeneratorOn
  let b3 := writeNumber b2 s.ulaLineCounter
  let b4 := writeNumber b3 s.tstates
  let b5 := writeNumber b4 s.vsyncStartTstates
  let b6 := writeNumber b5 s.hsyncTstatesCounter
  let b7 := writeBoolean b6 s.int38InNextCycle
  let b8 := writeBoolean b7 s.hsync
  let b9 := writeBoolean b8 s.vsync
  let b10 := writeBoolean b9 s.noDisplay
  let b11 := write8 b10 s.borderColor
  let b12 := write8 b11 s.chroma81Mode
  writeBoolean b12 s.chroma81Enabled

/-- `Zx81UlaScreen.deserialize`: reads the same 13 fields in order into
the target instance `t`. -/
def ulaDeserialize (buf : List Nat) (t : UlaState) : UlaState :=
  let r1 := read8 buf
  let r2 := readBoolean r1.2
  let r3 := readNumber r2.2
  let r4 := readNumber r3.2
  let r5 := readNumber r4.2
  let r6 := readNumber r5.2
  let r7 := readBoolean r6.2
  let r8 := readBoolean r7.2
  let r9 := readBoolean r8.2
  let r10 := readBoolean r9.2
  let r11 := read8 r10.2
  let r12 := read8 r11.2
  let r13 := readBoolean r12.2
  { t with prevRregister := r1.1, stateNmiGeneratorOn := r2.1,
           ulaLineCounter := r3.1, tstates := r4.1,
           vsyncStartTstates := r5.1, hsyncTstatesCounter := r6.1,
           int38InNextCycle := r7.1, hsync := r8.1, vsync := r9.1,
           noDisplay := r10.1, borderColor := r11.1,
           chroma81Mode := r12.1, chroma81Enabled := r13.1 }

/-- The fields covered by the snapshot codec of the bus-accurate variant
(everything it serializes; the free-running `lineCounter` is not part of
the snapshot). -/
structure UlaSnap where
  prevRregister : Nat
  stateNmiGeneratorOn : Bool
  ulaLineCounter : Nat
  tstates : Nat
  vsyncStartTstates : Nat
  hsyncTstatesCounter : Nat
  int38InNextCycle : Bool
  hsync : Bool
  vsync : Bool
  noDisplay : Bool
  borderColor : Nat
  chroma81Mode : Nat
  chroma81Enabled : Bool
deriving DecidableEq

/-- The serialized-state snapshot of an instance. -/
def ulaSnap (s : UlaState) : UlaSnap :=
  { prevRregister := s.prevRregister, stateNmiGeneratorOn := s.stateNmiGeneratorOn,
    ulaLineCounter := s.ulaLineCounter, tstates := s.tstates,
    vsyncStartTstates := s.vsyncStartTstates, hsyncTstatesCounter := s.hsyncTstatesCounter,
    int38InNextCycle := s.int38InNextCycle, hsync := s.hsync, vsync := s.vsync,
    noDisplay := s.noDisplay, borderColor := s.borderColor,
    chroma81Mode := s.chroma81Mode, chroma81Enabled := s.chroma81Enabled }

/-- A freshly constructed bus-accurate instance (field initializers of the
source; `borderColor := 0` stands in for the base-class initializer that
is outside the given sources). -/
def ulaInitial : UlaState where
  prevRregister := 0
  stateNmiGeneratorOn := false
  ulaLineCounter := 0
  lineCounter := 0
  tstates := 0
  vsyncStartTstates := 0
  hsyncTstatesCounter := 0
  int38InNextCycle := false
  hsync := false
  vsync := false
  noDisplay := false
  borderColor := 0
  chroma81Mode := 0
  chroma81Enabled := false

/-! ### Concrete instances used as witnesses and counterexamples -/

/-- The exact byte sequence of the specified DMA scenario:
`[0b00000100, 0x00, 0x40, 0x10, 0x00]`, `[0b00001101]`, `[0b00001101]`,
`0xCF` (load), `0x87` (enable). -/
def c1Seq : List Nat := [0x04, 0x00, 0x40, 0x10, 0x00, 0x0D, 0x0D, 0xCF, 0x87]

/-- The controller after feeding the scenario bytes to the control port. -/
def c1Final : DmaState := c1Seq.foldl writePortPure dmaInitial

/-- A byte sequence that actually programs what the scenario intends:
`0x7D` selects WR0 (low two bits non-zero) with direction A→B and all four
parameter bytes (port A start 0x4000, block length 0x0010); `0x14` is WR1
(port A memory, increment); `0x10` is WR2 (port B memory, increment);
`0xAD 0x00 0x60` is WR4 selecting continuous mode and port B start 0x6000;
`0xCF` loads; `0x87` enables. -/
def c1FixedSeq : List Nat :=
  [0x7D, 0x00, 0x40, 0x10, 0x00, 0x14, 0x10, 0xAD, 0x00, 0x60, 0xCF, 0x87]

/-- The controller after feeding the corrected sequence. -/
def c1FixedFinal : DmaState := c1FixedSeq.foldl writePortPure dmaInitial

/-- A populated DMA controller instance. -/
def dmaPopulated : DmaState :=
  { dmaInitial with autoRestart := true, portAcycleLength := 2, portBcycleLength := 4,
                    enabled := true, blockLength := 7, portAstartAddress := 0x4000,
                    portBstartAddress := 0x2000, readMask := 0x03, transferDirectionPortAtoB := false,
                    zxnPrescalar := 3, statusByteRR0 := 0x1B, blockCounterRR12 := 5,
                    portAaddressCounterRR34 := 0x4100, portBaddressCounterRR56 := 0x2100 }

/-- A DMA controller instance armed for a continuous transfer. -/
def dmaArmed : DmaState :=
  { dmaInitial with enabled := true, burstMode := false, blockLength := 5,
                    portAstartAddress := 0x4000, portBstartAddress := 0x2000,
                    portAadd := 1, portBadd := -1 }

/-- A populated bus-accurate ULA instance. -/
def ulaPopulated : UlaState :=
  { ulaInitial with prevRregister := 0x55, stateNmiGeneratorOn := true, ulaLineCounter := 5,
                    lineCounter := 99, tstates := 123456, vsyncStartTstates := 100000,
                    hsyncTstatesCounter := 44, int38InNextCycle := true, hsync := true,
                    vsync := true, noDisplay := true, borderColor := 7, chroma81Mode := 1,
                    chroma81Enabled := true }

/-- A ULA instance in active (low) vertical sync, 400 t-states into it. -/
def ulaVsyncShort : UlaState :=
  { ulaInitial with vsync := true, tstates := 400, vsyncStartTstates := 0,
                    lineCounter := 55, ulaLineCounter := 3, noDisplay := true }

/-- A ULA instance in active (low) vertical sync, 600 t-states into it. -/
def ulaVsyncLong : UlaState := { ulaVsyncShort with tstates := 600 }

/-- A memory content whose upper 32K reads 0x40 (bit 6 set) and whose
lower 32K reads 0x00 (bit 6 clear). -/
def mem64 : Nat → Nat := fun a => if a < 0x8000 then 0 else 0x40

/-- A memory object built over `mem64` for both read paths. -/
def ulaMem64 : UlaMemory := ⟨mem64, mem64⟩
/-! ### Arithmetic helpers for the JavaScript bit operations -/

theorem and255_eq_mod (x : Nat) : x &&& 255 = x % 256 :=
  Nat.and_pow_two_sub_one_eq_mod x 8

theorem and32767_eq_mod (x : Nat) : x &&& 32767 = x % 32768 :=
  Nat.and_pow_two_sub_one_eq_mod x 15

theorem andFF00_eq (x : Nat) : x &&& 65280 = 256 * (x / 256 % 256) := by
  have h2 : 256 * (x / 256 % 256) = ((x >>> 8) % 2 ^ 8) <<< 8 := by
    rw [Nat.shiftLeft_eq, Nat.shiftRight_eq_div_pow]
    ring_nf
  have h65280 : (65280 : Nat) = (2 ^ 8 - 1) <<< 8 := by decide
  apply Nat.eq_of_testBit_eq
  intro i
  rw [h2, h65280, Nat.testBit_and, Nat.testBit_shiftLeft, Nat.testBit_shiftLeft,
    Nat.testBit_mod_two_pow, Nat.testBit_shiftRight, Nat.testBit_two_pow_sub_one]
  by_cases h8 : 8 ≤ i
  · have : 8 + (i - 8) = i := by omega
    simp [h8, this, Bool.and_comm]
  · simp [h8]

theorem or_mul256_left (x b : Nat) (hb : b < 256) : 256 * x ||| b = 256 * x + b := by
  have := (Nat.mul_add_lt_is_or (i := 8) (b := b) (by omega) x).symm
  simpa using this

theorem or_mul256_right (x b : Nat) (hx : x < 256) : x ||| 256 * b = 256 * b + x := by
  rw [Nat.lor_comm]
  exact or_mul256_left b x hx

theorem shiftLeft8_eq (b : Nat) : b <<< 8 = 256 * b := by
  rw [Nat.shiftLeft_eq]
  ring

theorem and_two_pow_ne_zero_iff (x i : Nat) : (x &&& 2 ^ i ≠ 0) ↔ x.testBit i = true := by
  rw [Nat.and_two_pow]
  cases h : x.testBit i <;> simp [h]

theorem and64_eq_zero_iff (x : Nat) : (x &&& 64 = 0) ↔ x.testBit 6 = false := by
  have := and_two_pow_ne_zero_iff x 6
  norm_num at this
  cases h : x.testBit 6 <;> simp [h] at this ⊢ <;> omega

theorem and32768_ne_zero_iff (x : Nat) : (x &&& 32768 ≠ 0) ↔ x.testBit 15 = true := by
  have := and_two_pow_ne_zero_iff x 15
  norm_num at this
  exact this



theorem c9_reset_command (s : DmaState)
    (hfn : s.writePortFunc = WrFunc.decodeWRGroup) (hmask : s.nextDecodeBitMask = 0) :
    writePortPure s 0xC3 =
      { s with autoRestart := false, portAcycleLength := 0, portBcycleLength := 0 } := by
  have hsel : selectWr 0xC3 = WrFunc.wr6 := by decide
  cases s
  subst hfn
  subst hmask
  simp only [writePortPure, decodeWRGroup, hsel, applyWr, writeWR6, checkLastByte, dmaReset]
  simp

theorem c10_getState_impure (s : DmaState) (n : Nat) :
    (getState { s with blockLength := n }).2.blockLength = s.bl + 1
    ∧ (getState (getState s).1).2.blockLength = (getState s).2.blockLength + 1 := by
  simp [getState]

theorem decide_cond_ne (b : Bool) : decide (cond b 1 0 ≠ 0) = b := by
  cases b <;> decide

theorem c6_m1_interception (m : UlaMemory) (addr : Nat) :
    (installUlaM1 m).read8 = m.read8
    ∧ ((installUlaM1 m).m1Read8 addr =
        if addr.testBit 15 = true ∧ (m.read8 (addr % 32768)).testBit 6 = false then 0
        else m.read8 (addr % 32768))
    ∧ (∀ mem a, ulaRead8 mem a =
        if a.testBit 15 = true ∧ (mem a).testBit 6 = false then 0 else mem a) := by
  refine ⟨rfl, ?_, ?_⟩
  · simp only [installUlaM1, ulaM1Read8, and32767_eq_mod]
    by_cases h15 : addr.testBit 15 = true <;>
      by_cases h6 : (m.read8 (addr % 32768)).testBit 6 = false <;>
        simp [and32768_ne_zero_iff, and64_eq_zero_iff, h15, h6]
  · intro mem a
    simp only [ulaRead8]
    by_cases h15 : a.testBit 15 = true <;>
      by_cases h6 : (mem a).testBit 6 = false <;>
        simp [and32768_ne_zero_iff, and64_eq_zero_iff, h15, h6]

theorem c6_underlying_byte_counterexample :
    (installUlaM1 ulaMem64).m1Read8 0x8000 = 0
    ∧ Nat.testBit 0x8000 15 = true
    ∧ Nat.testBit (mem64 0x8000) 6 = true
    ∧ mem64 0x8000 = 0x40 := by decide

theorem num4bytes (n : Nat) (h : n < 4294967296) :
    n % 256 + 256 * (n / 256 % 256) + 65536 * (n / 65536 % 256)
      + 16777216 * (n / 16777216 % 256) = n := by omega

theorem decide_cond_eq_zero (b : Bool) : decide ((bif b then 1 else 0) = 0) = !b := by
  cases b <;> decide

theorem c5_ula_roundtrip (s t : UlaState)
    (h1 : s.prevRregister < 256) (h2 : s.borderColor < 256) (h3 : s.chroma81Mode < 256)
    (h4 : s.ulaLineCounter < 4294967296) (h5 : s.tstates < 4294967296)
    (h6 : s.vsyncStartTstates < 4294967296) (h7 : s.hsyncTstatesCounter < 4294967296) :
    ulaSnap (ulaDeserialize (ulaSerialize s []) t) = ulaSnap s := by
  simp [ulaSerialize, write8, writeBoolean, writeNumber, ulaDeserialize,
        read8, readBoolean, readNumber, ulaSnap, decide_cond_ne, UlaSnap.mk.injEq,
        decide_cond_eq_zero, num4bytes, h1, h2, h3, h4, h5, h6, h7]


theorem c5_ula_roundtrip_witness :
    ulaSnap (ulaDeserialize (ulaSerialize ulaPopulated []) ulaInitial) = ulaSnap ulaPopulated
    ∧ ulaSnap (ulaDeserialize (ulaSerialize ulaInitial []) ulaPopulated) = ulaSnap ulaInitial :=
  ⟨c5_ula_roundtrip ulaPopulated ulaInitial (by decide) (by decide) (by decide) (by decide)
      (by decide) (by decide) (by decide),
   c5_ula_roundtrip ulaInitial ulaPopulated (by decide) (by decide) (by decide) (by decide)
      (by decide) (by decide) (by decide)⟩

theorem c5_dma_roundtrip_counterexample :
    dmaSerialize dmaPopulated = []
    ∧ dmaDeserialize (dmaSerialize dmaPopulated) dmaInitial ≠ dmaPopulated
    ∧ (dmaDeserialize (dmaSerialize dmaPopulated) dmaInitial).portAstartAddress = 0
    ∧ dmaPopulated.portAstartAddress = 0x4000 := by decide

theorem c7_vsync_threshold (s : UlaState) (hv : s.vsync = true) :
    ((s.tstates : Int) - (s.vsyncStartTstates : Int) < 500 →
      (generateVsync s false).2 = false
      ∧ (generateVsync s false).1.lineCounter = s.lineCounter
      ∧ (generateVsync s false).1.noDisplay = s.noDisplay
      ∧ (generateVsync s false).1.ulaLineCounter = 0)
    ∧ (500 ≤ (s.tstates : Int) - (s.vsyncStartTstates : Int) →
      (generateVsync s false).2 = true
      ∧ (generateVsync s false).1.lineCounter = 0
      ∧ (generateVsync s false).1.noDisplay = false
      ∧ (generateVsync s false).1.ulaLineCounter = 0) := by
  constructor <;> intro h
  · have hcond : ¬ (500 ≤ (s.tstates : Int) - (s.vsyncStartTstates : Int)) := by omega
    simp [generateVsync, hv, hcond]
  · have hcond : (500 ≤ (s.tstates : Int) - (s.vsyncStartTstates : Int)) := h
    simp [generateVsync, hv, hcond]

theorem c7_vsync_threshold_witness :
    ((((ulaVsyncShort.tstates : Int) - (ulaVsyncShort.vsyncStartTstates : Int) < 500) →
      (generateVsync ulaVsyncShort false).2 = false
      ∧ (generateVsync ulaVsyncShort false).1.lineCounter = ulaVsyncShort.lineCounter
      ∧ (generateVsync ulaVsyncShort false).1.noDisplay = ulaVsyncShort.noDisplay
      ∧ (generateVsync ulaVsyncShort false).1.ulaLineCounter = 0)
    ∧ ((500 ≤ (ulaVsyncShort.tstates : Int) - (ulaVsyncShort.vsyncStartTstates : Int)) →
      (generateVsync ulaVsyncShort false).2 = true
      ∧ (generateVsync ulaVsyncShort false).1.lineCounter = 0
      ∧ (generateVsync ulaVsyncShort false).1.noDisplay = false
      ∧ (generateVsync ulaVsyncShort false).1.ulaLineCounter = 0))
    ∧ (((ulaVsyncLong.tstates : Int) - (ulaVsyncLong.vsyncStartTstates : Int) < 500 →
      (generateVsync ulaVsyncLong false).2 = false
      ∧ (generateVsync ulaVsyncLong false).1.lineCounter = ulaVsyncLong.lineCounter
      ∧ (generateVsync ulaVsyncLong false).1.noDisplay = ulaVsyncLong.noDisplay
      ∧ (generateVsync ulaVsyncLong false).1.ulaLineCounter = 0)
    ∧ (500 ≤ (ulaVsyncLong.tstates : Int) - (ulaVsyncLong.vsyncStartTstates : Int) →
      (generateVsync ulaVsyncLong false).2 = true
      ∧ (generateVsync ulaVsyncLong false).1.lineCounter = 0
      ∧ (generateVsync ulaVsyncLong false).1.noDisplay = false
      ∧ (generateVsync ulaVsyncLong false).1.ulaLineCounter = 0)) :=
  ⟨c7_vsync_threshold ulaVsyncShort (by decide), c7_vsync_threshold ulaVsyncLong (by decide)⟩

theorem checkHsync_int38 (s : UlaState) (t : Nat) :
    (checkHsync s t).1.int38InNextCycle = s.int38InNextCycle := by
  unfold checkHsync checkHsyncAux
  split_ifs <;> simp

theorem checkHsync_prevR (s : UlaState) (t : Nat) :
    (checkHsync s t).1.prevRregister = s.prevRregister := by
  unfold checkHsync checkHsyncAux
  split_ifs <;> simp

theorem ulaExecute_maskable (s : UlaState) (r t : Nat) :
    (ulaExecute s r t).maskableInt = s.int38InNextCycle := rfl

theorem ulaExecute_int38 (s : UlaState) (r t : Nat) :
    (ulaExecute s r t).state.int38InNextCycle
      = decide ((r &&& 64) = 0 ∧ (s.prevRregister &&& 64) ≠ 0) := by
  simp only [ulaExecute]
  split_ifs <;> simp_all [checkHsync_int38]

theorem ulaExecute_prevR (s : UlaState) (r t : Nat) :
    (ulaExecute s r t).state.prevRregister = r := by
  simp only [ulaExecute]
  split_ifs <;> simp_all [checkHsync_prevR]

theorem c8_int38_latency (s : UlaState) (r1 t1 r2 t2 : Nat) :
    (ulaExecute s r1 t1).maskableInt = s.int38InNextCycle
    ∧ (ulaExecute s r1 t1).state.int38InNextCycle
        = decide ((r1 &&& 64) = 0 ∧ (s.prevRregister &&& 64) ≠ 0)
    ∧ (ulaExecute (ulaExecute s r1 t1).state r2 t2).maskableInt
        = decide ((r1 &&& 64) = 0 ∧ (s.prevRregister &&& 64) ≠ 0)
    ∧ (ulaExecute (ulaExecute s r1 t1).state r2 t2).state.int38InNextCycle
        = decide ((r2 &&& 64) = 0 ∧ (r1 &&& 64) ≠ 0) := by
  refine ⟨ulaExecute_maskable s r1 t1, ulaExecute_int38 s r1 t1, ?_, ?_⟩
  · rw [ulaExecute_maskable, ulaExecute_int38]
  · rw [ulaExecute_int38, ulaExecute_prevR]

theorem c1_scenario_counterexample :
    (dmaExecute c1Final).2.1 = 0
    ∧ (dmaExecute c1Final).2.1 ≠ 96
    ∧ (dmaExecute c1Final).2.2 = []
    ∧ c1Final.burstMode = true
    ∧ c1Final.blockLength = 0
    ∧ c1Final.portAstartAddress = 0x0D := by decide

theorem c1_scenario_amended :
    (dmaExecute c1FixedFinal).2.1 = 96
    ∧ (dmaExecute c1FixedFinal).2.2.map (fun e => e.1)
        = [0x4000, 0x4001, 0x4002, 0x4003, 0x4004, 0x4005, 0x4006, 0x4007,
           0x4008, 0x4009, 0x400A, 0x400B, 0x400C, 0x400D, 0x400E, 0x400F]
    ∧ (dmaExecute c1FixedFinal).2.2.map (fun e => e.2.1)
        = [0x6000, 0x6001, 0x6002, 0x6003, 0x6004, 0x6005, 0x6006, 0x6007,
           0x6008, 0x6009, 0x600A, 0x600B, 0x600C, 0x600D, 0x600E, 0x600F]
    ∧ (dmaExecute c1FixedFinal).2.2.map (fun e => e.2.2) = List.replicate 16 0
    ∧ c1FixedFinal.blockLength = 16
    ∧ c1FixedFinal.burstMode = false
    ∧ c1FixedFinal.transferDirectionPortAtoB = true
    ∧ (dmaExecute c1FixedFinal).1.enabled = false := by decide

theorem addrAdd_lt (a : Nat) (st : Int) : addrAdd a st < 65536 := by
  simp only [addrAdd]
  omega

theorem addrAdd_cast (a : Nat) (st : Int) :
    ((addrAdd a st : Nat) : Int) = ((a : Int) + st) % 65536 := by
  simp only [addrAdd]
  omega

theorem emod_step (a st : Int) (n : Nat) :
    ((a + st) % 65536 + (n : Int) * st) % 65536 = (a + ((n : Int) + 1) * st) % 65536 := by
  have h : ((n : Int) + 1) * st = (n : Int) * st + st := by ring
  rw [h]
  generalize (n : Int) * st = y
  omega

/-- The transfer loop advances only the two address counters (each by its
port's step, modulo 65536, per iteration) and appends one event per
iteration to the trace. -/
theorem copyLoop_spec (n : Nat) :
    ∀ (s : DmaState) (tr : List DmaEvent),
      s.portAaddressCounterRR34 < 65536 → s.portBaddressCounterRR56 < 65536 →
      (copyLoop n s tr).1 = { s with
          portAaddressCounterRR34 :=
            (((s.portAaddressCounterRR34 : Int) + n * s.portAadd) % 65536).toNat,
          portBaddressCounterRR56 :=
            (((s.portBaddressCounterRR56 : Int) + n * s.portBadd) % 65536).toNat }
      ∧ (copyLoop n s tr).2.length = tr.length + n := by
  induction n with
  | zero =>
    intro s tr hA hB
    refine ⟨?_, by simp [copyLoop]⟩
    cases s
    simp_all [copyLoop]
    omega
  | succ n ih =>
    intro s tr hA hB
    have hA2 : addrAdd s.portAaddressCounterRR34 s.portAadd < 65536 := addrAdd_lt _ _
    have hB2 : addrAdd s.portBaddressCounterRR56 s.portBadd < 65536 := addrAdd_lt _ _
    obtain ⟨h1, h2⟩ := ih
      { s with portAaddressCounterRR34 := addrAdd s.portAaddressCounterRR34 s.portAadd,
               portBaddressCounterRR56 := addrAdd s.portBaddressCounterRR56 s.portBadd }
      (tr ++ [(if s.transferDirectionPortAtoB then s.portAaddressCounterRR34
               else s.portBaddressCounterRR56,
               if s.transferDirectionPortAtoB then s.portBaddressCounterRR56
               else s.portAaddressCounterRR34,
               readSrc s)])
      hA2 hB2
    have hstep : copyLoop (n + 1) s tr =
        copyLoop n { s with portAaddressCounterRR34 := addrAdd s.portAaddressCounterRR34 s.portAadd,
                            portBaddressCounterRR56 := addrAdd s.portBaddressCounterRR56 s.portBadd }
          (tr ++ [(if s.transferDirectionPortAtoB then s.portAaddressCounterRR34
                   else s.portBaddressCounterRR56,
                   if s.transferDirectionPortAtoB then s.portBaddressCounterRR56
                   else s.portAaddressCounterRR34,
                   readSrc s)]) := rfl
    rw [hstep, h1]
    refine ⟨?_, by simp at h2; omega⟩
    have hAeq : ((((addrAdd s.portAaddressCounterRR34 s.portAadd : Nat) : Int)
          + (n : Int) * s.portAadd) % 65536).toNat
        = (((s.portAaddressCounterRR34 : Int) + ((n + 1 : Nat) : Int) * s.portAadd) % 65536).toNat := by
      rw [addrAdd_cast]
      push_cast
      rw [emod_step]
    have hBeq : ((((addrAdd s.portBaddressCounterRR56 s.portBadd : Nat) : Int)
          + (n : Int) * s.portBadd) % 65536).toNat
        = (((s.portBaddressCounterRR56 : Int) + ((n + 1 : Nat) : Int) * s.portBadd) % 65536).toNat := by
      rw [addrAdd_cast]
      push_cast
      rw [emod_step]
    cases s
    simp_all

theorem copyLoop_blockLength (n : Nat) : ∀ (s : DmaState) (tr : List DmaEvent),
    (copyLoop n s tr).1.blockLength = s.blockLength := by
  induction n with
  | zero => intro s tr; rfl
  | succ n ih => intro s tr; exact ih _ _

theorem copyLoop_cycleA (n : Nat) : ∀ (s : DmaState) (tr : List DmaEvent),
    (copyLoop n s tr).1.portAcycleLength = s.portAcycleLength := by
  induction n with
  | zero => intro s tr; rfl
  | succ n ih => intro s tr; exact ih _ _

theorem copyLoop_cycleB (n : Nat) : ∀ (s : DmaState) (tr : List DmaEvent),
    (copyLoop n s tr).1.portBcycleLength = s.portBcycleLength := by
  induction n with
  | zero => intro s tr; rfl
  | succ n ih => intro s tr; exact ih _ _

theorem copyLoop_ioA (n : Nat) : ∀ (s : DmaState) (tr : List DmaEvent),
    (copyLoop n s tr).1.portAisIo = s.portAisIo := by
  induction n with
  | zero => intro s tr; rfl
  | succ n ih => intro s tr; exact ih _ _

theorem copyLoop_ioB (n : Nat) : ∀ (s : DmaState) (tr : List DmaEvent),
    (copyLoop n s tr).1.portBisIo = s.portBisIo := by
  induction n with
  | zero => intro s tr; rfl
  | succ n ih => intro s tr; exact ih _ _

/-- C3: enabled continuous transfer with zero prescalar consumes
(per-byte cost of port A + per-byte cost of port B) × blockLength
t-states, where the per-byte cost is the explicit cycle-length override
when non-zero, else 3 for memory and 4 for I/O; in particular 6·N with
both ports memory and default timing, 8·N with both ports I/O. -/
theorem c3_tstates_cost (s : DmaState)
    (hen : s.enabled = true) (hbm : s.burstMode = false) (hpre : s.zxnPrescalar = 0) :
    (dmaExecute s).2.1 =
      ((if s.portAcycleLength ≠ 0 then s.portAcycleLength
        else if s.portAisIo then 4 else 3)
       + (if s.portBcycleLength ≠ 0 then s.portBcycleLength
          else if s.portBisIo then 4 else 3)) * s.blockLength
    ∧ (s.portAcycleLength = 0 → s.portBcycleLength = 0 →
        s.portAisIo = false → s.portBisIo = false →
        (dmaExecute s).2.1 = 6 * s.blockLength)
    ∧ (s.portAcycleLength = 0 → s.portBcycleLength = 0 →
        s.portAisIo = true → s.portBisIo = true →
        (dmaExecute s).2.1 = 8 * s.blockLength) := by
  have hmain : (dmaExecute s).2.1 =
      ((if s.portAcycleLength ≠ 0 then s.portAcycleLength
        else if s.portAisIo then 4 else 3)
       + (if s.portBcycleLength ≠ 0 then s.portBcycleLength
          else if s.portBisIo then 4 else 3)) * s.blockLength := by
    simp [dmaExecute, hen, hbm, copyContinuous, hpre, portAtstates, portBtstates,
          copyLoop_blockLength, copyLoop_cycleA, copyLoop_cycleB, copyLoop_ioA,
          copyLoop_ioB, ite_not]
  refine ⟨hmain, ?_, ?_⟩ <;> intro h1 h2 h3 h4 <;> rw [hmain] <;> simp [h1, h2, h3, h4]

/-- C2: in continuous mode with zero prescalar, the load command followed
by `execute()` performs exactly blockLength read/write pairs, leaves each
address counter at (start + blockLength·step) mod 65536, zeroes the block
counter and disables the controller. -/
theorem c2_load_execute_transfers (s : DmaState)
    (hfn : s.writePortFunc = WrFunc.decodeWRGroup) (hmask : s.nextDecodeBitMask = 0)
    (hen : s.enabled = true) (hbm : s.burstMode = false) (hpre : s.zxnPrescalar = 0)
    (hA : s.portAstartAddress < 65536) (hB : s.portBstartAddress < 65536)
    (hsA : s.portAadd = -1 ∨ s.portAadd = 0 ∨ s.portAadd = 1)
    (hsB : s.portBadd = -1 ∨ s.portBadd = 0 ∨ s.portBadd = 1) :
    (dmaExecute (writePortPure s 0xCF)).2.2.length = s.blockLength
    ∧ (dmaExecute (writePortPure s 0xCF)).1.portAaddressCounterRR34
        = (((s.portAstartAddress : Int) + s.blockLength * s.portAadd) % 65536).toNat
    ∧ (dmaExecute (writePortPure s 0xCF)).1.portBaddressCounterRR56
        = (((s.portBstartAddress : Int) + s.blockLength * s.portBadd) % 65536).toNat
    ∧ (dmaExecute (writePortPure s 0xCF)).1.blockCounterRR12 = 0
    ∧ (dmaExecute (writePortPure s 0xCF)).1.enabled = false := by
  have hsel : selectWr 0xCF = WrFunc.wr6 := by decide
  have hload : writePortPure s 0xCF =
      { s with writePortFunc := .decodeWRGroup,
               portAaddressCounterRR34 := s.portAstartAddress,
               portBaddressCounterRR56 := s.portBstartAddress,
               blockCounterRR12 := 0 } := by
    cases s
    subst hfn
    subst hmask
    simp only [writePortPure, decodeWRGroup, hsel, applyWr, writeWR6, checkLastByte, dmaLoad]
    simp
  rw [hload]
  obtain ⟨h1, h2⟩ := copyLoop_spec s.blockLength
    { s with writePortFunc := .decodeWRGroup,
             portAaddressCounterRR34 := s.portAstartAddress,
             portBaddressCounterRR56 := s.portBstartAddress,
             blockCounterRR12 := 0 } [] hA hB
  cases s
  simp_all [dmaExecute, copyContinuous]

/-- Witness for C2 at a concrete armed controller (N = 5, steps +1/−1). -/
theorem c2_load_execute_transfers_witness :
    (dmaExecute (writePortPure dmaArmed 0xCF)).2.2.length = dmaArmed.blockLength
    ∧ (dmaExecute (writePortPure dmaArmed 0xCF)).1.portAaddressCounterRR34
        = (((dmaArmed.portAstartAddress : Int) + dmaArmed.blockLength * dmaArmed.portAadd) % 65536).toNat
    ∧ (dmaExecute (writePortPure dmaArmed 0xCF)).1.portBaddressCounterRR56
        = (((dmaArmed.portBstartAddress : Int) + dmaArmed.blockLength * dmaArmed.portBadd) % 65536).toNat
    ∧ (dmaExecute (writePortPure dmaArmed 0xCF)).1.blockCounterRR12 = 0
    ∧ (dmaExecute (writePortPure dmaArmed 0xCF)).1.enabled = false :=
  c2_load_execute_transfers dmaArmed (by decide) (by decide) (by decide) (by decide)
    (by decide) (by decide) (by decide) (by decide) (by decide)

/-- Witness for C3 at a concrete armed controller (both ports memory,
default timing). -/
theorem c3_tstates_cost_witness :
    ((dmaExecute dmaArmed).2.1 =
      ((if dmaArmed.portAcycleLength ≠ 0 then dmaArmed.portAcycleLength
        else if dmaArmed.portAisIo then 4 else 3)
       + (if dmaArmed.portBcycleLength ≠ 0 then dmaArmed.portBcycleLength
          else if dmaArmed.portBisIo then 4 else 3)) * dmaArmed.blockLength)
    ∧ (dmaArmed.portAcycleLength = 0 → dmaArmed.portBcycleLength = 0 →
        dmaArmed.portAisIo = false → dmaArmed.portBisIo = false →
        (dmaExecute dmaArmed).2.1 = 6 * dmaArmed.blockLength)
    ∧ (dmaArmed.portAcycleLength = 0 → dmaArmed.portBcycleLength = 0 →
        dmaArmed.portAisIo = true → dmaArmed.portBisIo = true →
        (dmaExecute dmaArmed).2.1 = 8 * dmaArmed.blockLength) :=
  c3_tstates_cost dmaArmed (by decide) (by decide) (by decide)

theorem or_mod256 (x b : Nat) : x % 256 ||| 256 * b = 256 * b + x % 256 :=
  or_mul256_right (x % 256) b (Nat.mod_lt x (by norm_num))

/-- Bit decomposition of a WR0-selecting first byte. -/
theorem wr0_first_byte_bits (a c2 : Nat) (p3 p4 p5 p6 : Bool)
    (ha : a < 4) (hc2 : c2 < 2) :
    (a + 4 * c2 + cond p3 8 0 + cond p4 16 0 + cond p5 32 0 + cond p6 64 0) &&& 0x80 = 0
    ∧ (a + 4 * c2 + cond p3 8 0 + cond p4 16 0 + cond p5 32 0 + cond p6 64 0) &&& 3 = a
    ∧ decide ((a + 4 * c2 + cond p3 8 0 + cond p4 16 0 + cond p5 32 0 + cond p6 64 0) &&& 4 = 4)
        = decide (c2 = 1)
    ∧ (a + 4 * c2 + cond p3 8 0 + cond p4 16 0 + cond p5 32 0 + cond p6 64 0) &&& 0x78
        = cond p3 8 0 + cond p4 16 0 + cond p5 32 0 + cond p6 64 0 := by
  rcases p3 <;> rcases p4 <;> rcases p5 <;> rcases p6 <;>
    interval_cases a <;> interval_cases c2 <;> decide

set_option maxHeartbeats 4000000

/-- C4: a WR0-selecting first byte (top bit clear, low two bits non-zero,
direction in bit 2, pending-parameter bits 3-6) followed by exactly the
requested parameter bytes sets the direction flag from bit 2 and
assembles port A start address and block length from the parameter bytes,
low byte first; halves whose pending bits were clear keep their previous
value, and the decode state is drained back to select-register. -/
theorem c4_wr0_sequence (a c2 : Nat) (p3 p4 p5 p6 : Bool) (b3 b4 b5 b6 : Nat)
    (s : DmaState)
    (ha : a < 4) (ha0 : a ≠ 0) (hc2 : c2 < 2)
    (hb3 : b3 < 256) (hb4 : b4 < 256) (hb5 : b5 < 256) (hb6 : b6 < 256)
    (hfn : s.writePortFunc = WrFunc.decodeWRGroup) (hmask : s.nextDecodeBitMask = 0)
    (hA : s.portAstartAddress < 65536) (hL : s.blockLength < 65536) :
    List.foldl writePortPure s
        ((a + 4 * c2 + cond p3 8 0 + cond p4 16 0 + cond p5 32 0 + cond p6 64 0)
          :: (cond p3 [b3] [] ++ cond p4 [b4] [] ++ cond p5 [b5] [] ++ cond p6 [b6] []))
      = { s with
          transferDirectionPortAtoB := decide (c2 = 1),
          portAstartAddress := 256 * cond p4 b4 (s.portAstartAddress / 256)
            + cond p3 b3 (s.portAstartAddress % 256),
          blockLength := 256 * cond p6 b6 (s.blockLength / 256)
            + cond p5 b5 (s.blockLength % 256) } := by
  obtain ⟨hw80, hw3, hw4, hw78⟩ := wr0_first_byte_bits a c2 p3 p4 p5 p6 ha hc2
  cases s
  subst hfn
  subst hmask
  rcases p3 <;> rcases p4 <;> rcases p5 <;> rcases p6 <;>
    simp at hw80 hw3 hw4 hw78 hA hL <;>
    simp +decide [writePortPure, decodeWRGroup, selectWr, applyWr, writeWR0, checkLastByte,
          hw80, hw3, hw4, hw78, ha0, andFF00_eq, and255_eq_mod, shiftLeft8_eq,
          or_mul256_left, or_mod256, hb3, hb4, hb5, hb6] <;>
    omega

/-- Witness for C4: byte 0x2D (WR0, direction A→B, pending bits 3 and 5)
followed by the two requested bytes, on a populated controller. -/
theorem c4_wr0_sequence_witness :
    List.foldl writePortPure dmaPopulated
        ((1 + 4 * 1 + cond true 8 0 + cond false 16 0 + cond true 32 0 + cond false 64 0)
          :: (cond true [0x34] [] ++ cond false [0x12] [] ++ cond true [0x10] []
              ++ cond false [0x0A] []))
      = { dmaPopulated with
          transferDirectionPortAtoB := decide ((1 : Nat) = 1),
          portAstartAddress := 256 * cond false 0x12 (dmaPopulated.portAstartAddress / 256)
            + cond true 0x34 (dmaPopulated.portAstartAddress % 256),
          blockLength := 256 * cond false 0x0A (dmaPopulated.blockLength / 256)
            + cond true 0x10 (dmaPopulated.blockLength % 256) } :=
  c4_wr0_sequence 1 1 true false true false 0x34 0x12 0x10 0x0A dmaPopulated
    (by decide) (by decide) (by decide) (by decide) (by decide) (by decide) (by decide)
    (by decide) (by decide) (by decide) (by decide)

/-- Witness for C9 at a populated controller. -/
theorem c9_reset_command_witness :
    writePortPure dmaPopulated 0xC3 =
      { dmaPopulated with autoRestart := false, portAcycleLength := 0, portBcycleLength := 0 } :=
  c9_reset_command dmaPopulated (by decide) (by decide)
